import Mathlib

/-!
Verification development for the media-keys subsystem of radiotray-ng
(src/radiotray-ng/extras/media_keys/linux/media_keys.cpp).

The C++ code is shallowly embedded: the configuration store and the
playback controller are external collaborators and are modelled as data;
the signal handler `on_gio_signal`, the key-map construction in the
`media_keys_t` constructor, the dbus-name resolution, and the gio thread
are translated into pure Lean functions that return the sequence of
actions invoked, log events emitted and bus calls issued.
-/

namespace RTNG

/-- Log levels of the logging sink (error, warning, info, debug). -/
inductive LogLevel where
  | error
  | warning
  | info
  | debug
deriving DecidableEq, Repr

/-- The zero-argument playback-controller actions that the media-keys
code can invoke on the IRadioTrayNG object. -/
inductive Action where
  | play
  | stop
  | volume_up_msg
  | volume_down_msg
  | next_station_msg
  | previous_station_msg
deriving DecidableEq, Repr

/-- The external configuration store (IConfig): `bools` and `strings` give
the persisted value of a key when present; `get_bool` / `get_string`
fall back to the supplied default, and `exists_key` reports presence
(IConfig::exists). -/
structure Config where
  bools : String → Option Bool
  strings : String → Option String

def Config.get_bool (c : Config) (key : String) (dflt : Bool) : Bool :=
  (c.bools key).getD dflt

def Config.get_string (c : Config) (key : String) (dflt : String) : String :=
  (c.strings key).getD dflt

def Config.exists_key (c : Config) (key : String) : Bool :=
  (c.bools key).isSome

/-- Modelled from the spec: configuration option name for enabling key
mapping (constant from i_config.hpp, which is not under src). -/
def MEDIA_KEY_MAPPING_KEY : String := "media_key_mapping"

/-- Modelled from the spec: configuration option name for the volume-up
key name (constant from i_config.hpp, not under src). -/
def MEDIA_KEY_VOLUME_UP_KEY : String := "media_key_volume_up"

/-- Modelled from the spec: configuration option name for the volume-down
key name (constant from i_config.hpp, not under src). -/
def MEDIA_KEY_VOLUME_DOWN_KEY : String := "media_key_volume_down"

/-- Modelled from the spec: configuration option name for the next-station
key name (constant from i_config.hpp, not under src; the source spells
the identifier MEDIA_KEY_NEXT_STAITON_KEY). -/
def MEDIA_KEY_NEXT_STAITON_KEY : String := "media_key_next_station"

/-- Modelled from the spec: configuration option name for the
previous-station key name (constant from i_config.hpp, not under src). -/
def MEDIA_KEY_PREVIOUS_STATION_KEY : String := "media_key_previous_station"

/-- Modelled from the spec: configuration option name for the legacy
bus-name preference (constant from i_config.hpp, not under src). -/
def MEDIA_KEY_OLD_DBUS_NAME_KEY : String := "media_key_old_dbus_name"

/-- Modelled from the spec: key mapping is enabled by default
("enable-key-mapping (default: on)"). -/
def DEFAULT_MEDIA_KEY_MAPPING_VALUE : Bool := true

/-- Modelled from the spec: default for the legacy bus-name preference
(only consulted when the key exists, so its value is immaterial). -/
def DEFAULT_MEDIA_KEY_OLD_DBUS_NAME_VALUE : Bool := false

/-- Modelled from the spec: default volume-up key name
(spec scenario uses XF86AudioRaiseVolume). -/
def DEFAULT_MEDIA_KEY_VOLUME_UP_VALUE : String := "XF86AudioRaiseVolume"

/-- Modelled from the spec: default volume-down key name. -/
def DEFAULT_MEDIA_KEY_VOLUME_DOWN_VALUE : String := "XF86AudioLowerVolume"

/-- Modelled from the spec: default next-station key name. -/
def DEFAULT_MEDIA_KEY_NEXT_STATION_VALUE : String := "XF86AudioNext"

/-- Modelled from the spec: default previous-station key name. -/
def DEFAULT_MEDIA_KEY_PREVIOUS_STATION_VALUE : String := "XF86AudioPrev"

/-- Modelled from the spec: the playback state string for "stopped"
(STATE_STOPPED from i_radiotray_ng.hpp, not under src). -/
def STATE_STOPPED : String := "stopped"

/-- Modelled from the spec: a playback state other than "stopped"
(get_state returns values in the set stopped or other). -/
def STATE_PLAYING : String := "playing"

/-- Modelled from the spec: radiotray_ng::to_lower (helper not under src)
lower-cases a string character by character. -/
def to_lower (s : String) : String := String.mk (s.data.map Char.toLower)

/-- Containment of `needle` in `hay`, the semantics of
std::string::find(needle) != npos used on line 65 of the source. -/
def contains_sub (needle : List Char) : List Char → Bool
  | [] => needle.isEmpty
  | c :: t => needle.isPrefixOf (c :: t) || contains_sub needle t

/-- std::map insertion via operator[]: overwrites the binding of an
existing key, otherwise appends a new binding. -/
def mapInsert (k : String) (v : Action) : List (String × Action) → List (String × Action)
  | [] => [(k, v)]
  | (k₁, v₁) :: rest =>
      if k₁ = k then (k, v) :: rest else (k₁, v₁) :: mapInsert k v rest

/-- std::map::find on the association-list model. -/
def mapFind (k : String) : List (String × Action) → Option Action
  | [] => none
  | (k₁, v₁) :: rest => if k₁ = k then some v₁ else mapFind k rest

/-- Key-map construction from the media_keys_t constructor (lines 40-55):
when MEDIA_KEY_MAPPING_KEY is enabled, the four configured key names are
lower-cased and bound, in order, to volume_up_msg, volume_down_msg,
next_station_msg, previous_station_msg; otherwise the map stays empty. -/
def build_media_keys (c : Config) : List (String × Action) :=
  if c.get_bool MEDIA_KEY_MAPPING_KEY DEFAULT_MEDIA_KEY_MAPPING_VALUE then
    mapInsert (to_lower (c.get_string MEDIA_KEY_PREVIOUS_STATION_KEY DEFAULT_MEDIA_KEY_PREVIOUS_STATION_VALUE))
      Action.previous_station_msg
      (mapInsert (to_lower (c.get_string MEDIA_KEY_NEXT_STAITON_KEY DEFAULT_MEDIA_KEY_NEXT_STATION_VALUE))
        Action.next_station_msg
        (mapInsert (to_lower (c.get_string MEDIA_KEY_VOLUME_DOWN_KEY DEFAULT_MEDIA_KEY_VOLUME_DOWN_VALUE))
          Action.volume_down_msg
          (mapInsert (to_lower (c.get_string MEDIA_KEY_VOLUME_UP_KEY DEFAULT_MEDIA_KEY_VOLUME_UP_VALUE))
            Action.volume_up_msg [])))
  else []

/-- The dbus-name resolution of the media_keys_t constructor
(lines 37 and 57-81): the name starts as the modern
org.gnome.SettingsDaemon.MediaKeys; when the legacy preference key is
absent, XDG_CURRENT_DESKTOP decides (legacy unless its lower-cased value
contains "gnome"; a warning when unreadable); when the key exists, its
boolean value selects legacy or keeps modern.  Returns the resolved name
together with the log events emitted. -/
def resolve_dbus_name (c : Config) (xdg_current_desktop : Option String) :
    String × List LogLevel :=
  if ¬ (c.exists_key MEDIA_KEY_OLD_DBUS_NAME_KEY) then
    match xdg_current_desktop with
    | some x =>
        if contains_sub ("gnome".toList) ((to_lower x).toList) then
          ("org.gnome.SettingsDaemon.MediaKeys", [])
        else
          ("org.gnome.SettingsDaemon", [])
    | none => ("org.gnome.SettingsDaemon.MediaKeys", [LogLevel.warning])
  else
    if c.get_bool MEDIA_KEY_OLD_DBUS_NAME_KEY DEFAULT_MEDIA_KEY_OLD_DBUS_NAME_VALUE then
      ("org.gnome.SettingsDaemon", [])
    else
      ("org.gnome.SettingsDaemon.MediaKeys", [])

/-- The signal handler media_keys_t::on_gio_signal (lines 132-195).

The GVariant payload is modelled as `Option (List (Option String))`:
`none` for a null parameters pointer, and each child field `some s`
when g_variant_get_string can read it as a string, `none` otherwise.
`m` is the media_keys map, `state` the value get_state() returns at
dispatch time, and `c` the configuration store read at dispatch time.
The result lists the playback actions invoked and the log events
emitted, in order. -/
def on_gio_signal (c : Config) (m : List (String × Action)) (state : String)
    (parameters : Option (List (Option String))) : List Action × List LogLevel :=
  match parameters with
  | none => ([], [LogLevel.error])
  | some fields =>
    if fields.length = 2 then
      match fields.getD 1 none with
      | none => ([], [LogLevel.error])
      | some key_pressed =>
        if key_pressed = "Stop" then
          ([Action.stop], [LogLevel.debug])
        else if key_pressed = "Play" then
          (if state = STATE_STOPPED then ([Action.play], [LogLevel.debug])
           else ([Action.stop], [LogLevel.debug]))
        else if c.get_bool MEDIA_KEY_MAPPING_KEY DEFAULT_MEDIA_KEY_MAPPING_VALUE then
          match mapFind (to_lower key_pressed) m with
          | some act => ([act], [LogLevel.debug])
          | none => ([], [LogLevel.debug, LogLevel.debug])
        else
          ([], [LogLevel.debug, LogLevel.debug])
    else ([], [LogLevel.error])

/-- Modelled from the spec: the external playback controller, whose state
moves away from "stopped" on play and back to "stopped" on stop; the
other actions do not change the playback state. -/
def apply_action (state : String) : Action → String
  | Action.play => STATE_PLAYING
  | Action.stop => STATE_STOPPED
  | _ => state

/-- Dispatch a sequence of inbound signals, threading the playback state
through the actions each dispatch invokes; returns all invoked actions
in order. -/
def run_signals (c : Config) (m : List (String × Action)) (state : String) :
    List (Option (List (Option String))) → List Action
  | [] => []
  | p :: rest =>
      let acts := (on_gio_signal c m state p).1
      acts ++ run_signals c m (acts.foldl apply_action state) rest

/-- A bus-call argument: a string or a uint32, as in the GVariant format
strings "(su)" and "(s)" of the source. -/
inductive BusArg where
  | str (s : String)
  | u32 (n : Nat)
deriving DecidableEq, Repr

/-- A g_dbus_proxy_call: the method name and its arguments. -/
structure BusCall where
  method : String
  args : List BusArg
deriving DecidableEq, Repr

/-- Modelled from the spec: APP_NAME (common.hpp, not under src) is the
application name. -/
def APP_NAME : String := "radiotray-ng"

/-- The app_name member initialisation on line 36:
std::string(APP_NAME) + "-" + std::to_string(getpid()). -/
def make_app_name (app : String) (pid : Nat) : String :=
  app ++ "-" ++ toString pid

/-- Events of the gio thread (lines 198-249 of the source). -/
inductive GioEvent where
  | log_error_disabled
  | connect_signal_handler
  | bus_call (c : BusCall)
  | notify_ready
  | wait_for_shutdown
  | unref_proxy
deriving DecidableEq, Repr

/-- media_keys_t::gio_thread as an event trace, parameterised by whether
g_dbus_proxy_new_for_bus_sync returns a proxy: on failure it logs an
error and signals readiness; on success it connects the signal handler,
issues GrabMediaPlayerKeys(app_name, 0), signals readiness, waits for
the shutdown request, issues ReleaseMediaPlayerKeys(app_name) and drops
the proxy reference. -/
def gio_thread (proxy_ok : Bool) (app_name : String) : List GioEvent :=
  if proxy_ok then
    [ GioEvent.connect_signal_handler,
      GioEvent.bus_call ⟨"GrabMediaPlayerKeys", [BusArg.str app_name, BusArg.u32 0]⟩,
      GioEvent.notify_ready,
      GioEvent.wait_for_shutdown,
      GioEvent.bus_call ⟨"ReleaseMediaPlayerKeys", [BusArg.str app_name]⟩,
      GioEvent.unref_proxy ]
  else
    [ GioEvent.log_error_disabled, GioEvent.notify_ready ]

/-- The bus calls a gio-thread trace issues, in order. -/
def bus_calls (trace : List GioEvent) : List BusCall :=
  trace.filterMap (fun e => match e with
    | GioEvent.bus_call c => some c
    | _ => none)

/-- Program counter of the owner thread inside the media_keys_t
constructor (lines 85-91): it holds gio_thread_mutex and has just
started the gio thread (oLocked); cv.wait atomically releases the mutex
and blocks (oWaiting); a notification wakes it (oWoken); it reacquires
the mutex and the constructor returns (oReturned). -/
inductive OwnerPC where
  | oLocked
  | oWaiting
  | oWoken
  | oReturned
deriving DecidableEq, Repr

/-- Program counter of the gio thread on the connection-failure path
(lines 212-218): about to call notify_one (tStart), or finished
(tDone).  The thread takes no lock on this path and notifies exactly
once. -/
inductive ThreadPC where
  | tStart
  | tDone
deriving DecidableEq, Repr

/-- Joint state of the two threads during construction. -/
structure SyncState where
  owner : OwnerPC
  thr : ThreadPC
deriving DecidableEq, Repr

/-- Interleaving semantics of the startup synchronization on the
connection-failure path: the owner may enter cv.wait (releasing the
mutex); the notify_one of the thread wakes the owner exactly when the
owner is already waiting and is lost otherwise (std::condition_variable
semantics — the wait at line 90 has no predicate and no notification is
ever repeated); a woken owner reacquires the free mutex and returns. -/
inductive SyncStep : SyncState → SyncState → Prop where
  | owner_wait (t : ThreadPC) :
      SyncStep ⟨OwnerPC.oLocked, t⟩ ⟨OwnerPC.oWaiting, t⟩
  | notify_hit :
      SyncStep ⟨OwnerPC.oWaiting, ThreadPC.tStart⟩ ⟨OwnerPC.oWoken, ThreadPC.tDone⟩
  | notify_miss (o : OwnerPC) :
      o ≠ OwnerPC.oWaiting →
      SyncStep ⟨o, ThreadPC.tStart⟩ ⟨o, ThreadPC.tDone⟩
  | owner_wake (t : ThreadPC) :
      SyncStep ⟨OwnerPC.oWoken, t⟩ ⟨OwnerPC.oReturned, t⟩

/-- Initial state: the constructor holds the mutex (line 85) and has
spawned the gio thread (line 87), which failed to obtain a proxy. -/
def syncInit : SyncState := ⟨OwnerPC.oLocked, ThreadPC.tStart⟩

/-- A configuration store with no persisted keys (all lookups fall back
to the documented defaults). -/
def cfg_empty : Config := ⟨fun _ => none, fun _ => none⟩

/-- A configuration store persisting only the legacy bus-name preference,
set to true. -/
def cfg_legacy : Config :=
  ⟨fun k => if k = MEDIA_KEY_OLD_DBUS_NAME_KEY then some true else none,
   fun _ => none⟩

/-- A configuration store with key mapping enabled whose volume-up key
name "A" and previous-station key name "a" collide after
lower-casing. -/
def cfg_collide : Config :=
  ⟨fun k => if k = MEDIA_KEY_MAPPING_KEY then some true else none,
   fun k =>
     if k = MEDIA_KEY_VOLUME_UP_KEY then some "A"
     else if k = MEDIA_KEY_VOLUME_DOWN_KEY then some "VolumeDown"
     else if k = MEDIA_KEY_NEXT_STAITON_KEY then some "NextStation"
     else if k = MEDIA_KEY_PREVIOUS_STATION_KEY then some "a"
     else none⟩

/-- A configuration store with key mapping disabled and the default key
names persisted. -/
def cfg_disabled : Config :=
  ⟨fun k => if k = MEDIA_KEY_MAPPING_KEY then some false else none,
   fun k => if k = MEDIA_KEY_VOLUME_UP_KEY then some "XF86AudioRaiseVolume" else none⟩

/-- Unfolding of the signal handler on a well-formed two-field payload
whose second field reads as the string k. -/
theorem on_gio_signal_valid (c : Config) (m : List (String × Action)) (st : String)
    (f0 : Option String) (k : String) :
    on_gio_signal c m st (some [f0, some k]) =
      (if k = "Stop" then ([Action.stop], [LogLevel.debug])
       else if k = "Play" then
         (if st = STATE_STOPPED then ([Action.play], [LogLevel.debug])
          else ([Action.stop], [LogLevel.debug]))
       else if c.get_bool MEDIA_KEY_MAPPING_KEY DEFAULT_MEDIA_KEY_MAPPING_VALUE then
         match mapFind (to_lower k) m with
         | some act => ([act], [LogLevel.debug])
         | none => ([], [LogLevel.debug, LogLevel.debug])
       else ([], [LogLevel.debug, LogLevel.debug])) := rfl

/-- C1: a Play signal invokes play when the playback state is "stopped"
and stop in any other state; two consecutive Play signals starting from
"stopped" invoke play then stop. -/
theorem c1_play_toggle :
    (∀ (c : Config) (m : List (String × Action)) (f0 : Option String),
        (on_gio_signal c m STATE_STOPPED (some [f0, some "Play"])).1 = [Action.play])
    ∧ (∀ (c : Config) (m : List (String × Action)) (st : String) (f0 : Option String),
        st ≠ STATE_STOPPED →
        (on_gio_signal c m st (some [f0, some "Play"])).1 = [Action.stop])
    ∧ (∀ (c : Config) (m : List (String × Action)) (f0 f1 : Option String),
        run_signals c m STATE_STOPPED
          [some [f0, some "Play"], some [f1, some "Play"]] = [Action.play, Action.stop]) := by
  refine ⟨fun c m f0 => rfl, fun c m st f0 h => ?_, fun c m f0 f1 => rfl⟩
  rw [on_gio_signal_valid]
  simp [h]

/-- Witness for C1: in the non-stopped state "playing", a Play signal
invokes stop. -/
theorem c1_play_toggle_witness :
    STATE_PLAYING ≠ STATE_STOPPED ∧
    (on_gio_signal cfg_empty [] STATE_PLAYING (some [some "x", some "Play"])).1 = [Action.stop] :=
  ⟨by decide, c1_play_toggle.2.1 cfg_empty [] STATE_PLAYING (some "x") (by decide)⟩

/-- C2: the bus name resolution uses the persisted legacy-name preference
when present (legacy on true, modern on false); otherwise the
lower-cased session identifier decides (modern when it contains "gnome",
legacy otherwise, modern plus a warning when unreadable); the
identifiers "ubuntu:GNOME" and "KDE" yield the modern and the legacy
name respectively. -/
theorem c2_dbus_resolution :
    (∀ (c : Config) (x : Option String),
        c.exists_key MEDIA_KEY_OLD_DBUS_NAME_KEY = true →
        resolve_dbus_name c x =
          (if c.get_bool MEDIA_KEY_OLD_DBUS_NAME_KEY DEFAULT_MEDIA_KEY_OLD_DBUS_NAME_VALUE
           then ("org.gnome.SettingsDaemon", [])
           else ("org.gnome.SettingsDaemon.MediaKeys", [])))
    ∧ (∀ (c : Config) (x : String),
        c.exists_key MEDIA_KEY_OLD_DBUS_NAME_KEY = false →
        resolve_dbus_name c (some x) =
          (if contains_sub ("gnome".toList) ((to_lower x).toList)
           then ("org.gnome.SettingsDaemon.MediaKeys", [])
           else ("org.gnome.SettingsDaemon", [])))
    ∧ (∀ (c : Config),
        c.exists_key MEDIA_KEY_OLD_DBUS_NAME_KEY = false →
        resolve_dbus_name c none = ("org.gnome.SettingsDaemon.MediaKeys", [LogLevel.warning]))
    ∧ resolve_dbus_name cfg_empty (some "ubuntu:GNOME") = ("org.gnome.SettingsDaemon.MediaKeys", [])
    ∧ resolve_dbus_name cfg_empty (some "KDE") = ("org.gnome.SettingsDaemon", []) := by
  refine ⟨fun c x h => ?_, fun c x h => ?_, fun c h => ?_, by decide, by decide⟩
  · simp [resolve_dbus_name, h]
  · simp [resolve_dbus_name, h]
  · simp [resolve_dbus_name, h]

/-- Witness for C2: with the legacy preference persisted as true, the
legacy name is selected even on a GNOME session identifier. -/
theorem c2_dbus_resolution_witness :
    resolve_dbus_name cfg_legacy (some "ubuntu:GNOME") = ("org.gnome.SettingsDaemon", []) := by
  rw [c2_dbus_resolution.1 cfg_legacy (some "ubuntu:GNOME") (by decide)]
  decide

/-- C3: every malformed payload (null, wrong arity, or second field not
readable as a string) invokes no action, returns normally, and emits
exactly one error-level log event. -/
theorem c3_malformed_ignored :
    ∀ (c : Config) (m : List (String × Action)) (st : String)
      (p : Option (List (Option String))),
      (∀ f0 k, p ≠ some [f0, some k]) →
      on_gio_signal c m st p = ([], [LogLevel.error]) := by
  intro c m st p h
  match p with
  | none => rfl
  | some [] => rfl
  | some [a] => rfl
  | some [a, none] => rfl
  | some [a, some k] => exact absurd rfl (h a k)
  | some (a :: b :: d :: ds) =>
      simp only [on_gio_signal, List.length_cons]
      rw [if_neg (by omega)]

/-- Witness for C3: a two-field payload whose second field is not a
string invokes nothing and logs a single error. -/
theorem c3_malformed_ignored_witness :
    on_gio_signal cfg_empty [] STATE_STOPPED (some [some "x", none]) = ([], [LogLevel.error]) :=
  c3_malformed_ignored cfg_empty [] STATE_STOPPED (some [some "x", none])
    (by intro f0 k hEq; simp at hEq)

/-- C4: with the key-mapping option false, the map is built empty and a
signal whose key is neither Play nor Stop invokes no action, even when
the key matches a configured name. -/
theorem c4_mapping_disabled :
    ∀ (c : Config),
      c.get_bool MEDIA_KEY_MAPPING_KEY DEFAULT_MEDIA_KEY_MAPPING_VALUE = false →
      build_media_keys c = []
      ∧ ∀ (st : String) (f0 : Option String) (k : String),
          k ≠ "Play" → k ≠ "Stop" →
          (on_gio_signal c (build_media_keys c) st (some [f0, some k])).1 = [] := by
  intro c hflag
  have hb : build_media_keys c = [] := by simp [build_media_keys, hflag]
  refine ⟨hb, fun st f0 k hp hs => ?_⟩
  rw [on_gio_signal_valid, if_neg hs, if_neg hp, hflag]
  rfl

/-- Witness for C4: with mapping disabled, an incoming key equal to the
configured volume-up name invokes nothing. -/
theorem c4_mapping_disabled_witness :
    build_media_keys cfg_disabled = []
    ∧ (on_gio_signal cfg_disabled (build_media_keys cfg_disabled) STATE_STOPPED
        (some [none, some "XF86AudioRaiseVolume"])).1 = [] :=
  ⟨(c4_mapping_disabled cfg_disabled (by decide)).1,
   (c4_mapping_disabled cfg_disabled (by decide)).2 STATE_STOPPED none
     "XF86AudioRaiseVolume" (by decide) (by decide)⟩

/-- Counterexample for C5: in cfg_collide the volume-up key name "A" and
the previous-station key name "a" coincide after lower-casing, so the
lookup of lower("A") returns previous_station_msg, not the action the
configuration bound to "A", and the incoming key "a" invokes
previous_station_msg. -/
theorem c5_lookup_counterexample :
    mapFind (to_lower "A") (build_media_keys cfg_collide) = some Action.previous_station_msg
    ∧ Action.previous_station_msg ≠ Action.volume_up_msg
    ∧ (on_gio_signal cfg_collide (build_media_keys cfg_collide) STATE_PLAYING
        (some [none, some "a"])).1 = [Action.previous_station_msg] :=
  ⟨by decide, by decide, by decide⟩

/-- C5 (amended): all stored keys are lower-casings of the configured
names; when the four lower-cased configured names are pairwise distinct,
looking up the lower-casing of each configured name returns the action
bound to it, and an incoming key (other than Play and Stop) whose
lower-casing is a stored key invokes the bound action. -/
theorem c5_lowercase_keys (c : Config)
    (hmap : c.get_bool MEDIA_KEY_MAPPING_KEY DEFAULT_MEDIA_KEY_MAPPING_VALUE = true)
    (hud : to_lower (c.get_string MEDIA_KEY_VOLUME_UP_KEY DEFAULT_MEDIA_KEY_VOLUME_UP_VALUE)
         ≠ to_lower (c.get_string MEDIA_KEY_VOLUME_DOWN_KEY DEFAULT_MEDIA_KEY_VOLUME_DOWN_VALUE))
    (hun : to_lower (c.get_string MEDIA_KEY_VOLUME_UP_KEY DEFAULT_MEDIA_KEY_VOLUME_UP_VALUE)
         ≠ to_lower (c.get_string MEDIA_KEY_NEXT_STAITON_KEY DEFAULT_MEDIA_KEY_NEXT_STATION_VALUE))
    (hup : to_lower (c.get_string MEDIA_KEY_VOLUME_UP_KEY DEFAULT_MEDIA_KEY_VOLUME_UP_VALUE)
         ≠ to_lower (c.get_string MEDIA_KEY_PREVIOUS_STATION_KEY DEFAULT_MEDIA_KEY_PREVIOUS_STATION_VALUE))
    (hdn : to_lower (c.get_string MEDIA_KEY_VOLUME_DOWN_KEY DEFAULT_MEDIA_KEY_VOLUME_DOWN_VALUE)
         ≠ to_lower (c.get_string MEDIA_KEY_NEXT_STAITON_KEY DEFAULT_MEDIA_KEY_NEXT_STATION_VALUE))
    (hdp : to_lower (c.get_string MEDIA_KEY_VOLUME_DOWN_KEY DEFAULT_MEDIA_KEY_VOLUME_DOWN_VALUE)
         ≠ to_lower (c.get_string MEDIA_KEY_PREVIOUS_STATION_KEY DEFAULT_MEDIA_KEY_PREVIOUS_STATION_VALUE))
    (hnp : to_lower (c.get_string MEDIA_KEY_NEXT_STAITON_KEY DEFAULT_MEDIA_KEY_NEXT_STATION_VALUE)
         ≠ to_lower (c.get_string MEDIA_KEY_PREVIOUS_STATION_KEY DEFAULT_MEDIA_KEY_PREVIOUS_STATION_VALUE)) :
    (∀ pr ∈ build_media_keys c,
        pr.1 = to_lower (c.get_string MEDIA_KEY_VOLUME_UP_KEY DEFAULT_MEDIA_KEY_VOLUME_UP_VALUE)
      ∨ pr.1 = to_lower (c.get_string MEDIA_KEY_VOLUME_DOWN_KEY DEFAULT_MEDIA_KEY_VOLUME_DOWN_VALUE)
      ∨ pr.1 = to_lower (c.get_string MEDIA_KEY_NEXT_STAITON_KEY DEFAULT_MEDIA_KEY_NEXT_STATION_VALUE)
      ∨ pr.1 = to_lower (c.get_string MEDIA_KEY_PREVIOUS_STATION_KEY DEFAULT_MEDIA_KEY_PREVIOUS_STATION_VALUE))
    ∧ mapFind (to_lower (c.get_string MEDIA_KEY_VOLUME_UP_KEY DEFAULT_MEDIA_KEY_VOLUME_UP_VALUE))
        (build_media_keys c) = some Action.volume_up_msg
    ∧ mapFind (to_lower (c.get_string MEDIA_KEY_VOLUME_DOWN_KEY DEFAULT_MEDIA_KEY_VOLUME_DOWN_VALUE))
        (build_media_keys c) = some Action.volume_down_msg
    ∧ mapFind (to_lower (c.get_string MEDIA_KEY_NEXT_STAITON_KEY DEFAULT_MEDIA_KEY_NEXT_STATION_VALUE))
        (build_media_keys c) = some Action.next_station_msg
    ∧ mapFind (to_lower (c.get_string MEDIA_KEY_PREVIOUS_STATION_KEY DEFAULT_MEDIA_KEY_PREVIOUS_STATION_VALUE))
        (build_media_keys c) = some Action.previous_station_msg
    ∧ (∀ (st : String) (f0 : Option String) (k : String) (a : Action),
        k ≠ "Play" → k ≠ "Stop" →
        mapFind (to_lower k) (build_media_keys c) = some a →
        (on_gio_signal c (build_media_keys c) st (some [f0, some k])).1 = [a]) := by
  have hbuild : build_media_keys c =
      [ (to_lower (c.get_string MEDIA_KEY_VOLUME_UP_KEY DEFAULT_MEDIA_KEY_VOLUME_UP_VALUE), Action.volume_up_msg),
        (to_lower (c.get_string MEDIA_KEY_VOLUME_DOWN_KEY DEFAULT_MEDIA_KEY_VOLUME_DOWN_VALUE), Action.volume_down_msg),
        (to_lower (c.get_string MEDIA_KEY_NEXT_STAITON_KEY DEFAULT_MEDIA_KEY_NEXT_STATION_VALUE), Action.next_station_msg),
        (to_lower (c.get_string MEDIA_KEY_PREVIOUS_STATION_KEY DEFAULT_MEDIA_KEY_PREVIOUS_STATION_VALUE), Action.previous_station_msg) ] := by
    simp [build_media_keys, hmap, mapInsert, hud, hun, hup, hdn, hdp, hnp]
  refine ⟨?_, ?_, ?_, ?_, ?_, ?_⟩
  · intro pr hpr
    rw [hbuild] at hpr
    simp only [List.mem_cons, List.mem_singleton, List.not_mem_nil, or_false] at hpr
    rcases hpr with h | h | h | h <;> subst h <;> simp
  · rw [hbuild]; simp [mapFind]
  · rw [hbuild]; simp [mapFind, hud]
  · rw [hbuild]; simp [mapFind, hun, hdn]
  · rw [hbuild]; simp [mapFind, hup, hdp, hnp]
  · intro st f0 k a hp hs hfind
    rw [on_gio_signal_valid, if_neg hs, if_neg hp, hmap]
    simp [hfind]

/-- Witness for C5 (amended): with the default key names, the incoming
key XF86AudioRaiseVolume invokes the volume-up action. -/
theorem c5_lowercase_keys_witness :
    (on_gio_signal cfg_empty (build_media_keys cfg_empty) STATE_PLAYING
      (some [none, some "XF86AudioRaiseVolume"])).1 = [Action.volume_up_msg] := by
  have h := c5_lowercase_keys cfg_empty (by decide) (by decide) (by decide) (by decide)
    (by decide) (by decide) (by decide)
  exact h.2.2.2.2.2 STATE_PLAYING none "XF86AudioRaiseVolume" Action.volume_up_msg
    (by decide) (by decide) h.2.1

/-- C6: on a successful connection, the gio thread issues exactly
GrabMediaPlayerKeys(app_name, 0) and then ReleaseMediaPlayerKeys(app_name),
and app_name is the application name, a dash, and the process id. -/
theorem c6_grab_release_calls :
    ∀ (pid : Nat),
      bus_calls (gio_thread true (make_app_name APP_NAME pid)) =
        [ ⟨"GrabMediaPlayerKeys", [BusArg.str (make_app_name APP_NAME pid), BusArg.u32 0]⟩,
          ⟨"ReleaseMediaPlayerKeys", [BusArg.str (make_app_name APP_NAME pid)]⟩ ]
      ∧ make_app_name APP_NAME pid = APP_NAME ++ "-" ++ toString pid :=
  fun _ => ⟨rfl, rfl⟩

/-- C7: a Stop signal invokes exactly the stop action, for every
configuration, mapping and playback state. -/
theorem c7_stop_always_stops :
    ∀ (c : Config) (m : List (String × Action)) (st : String) (f0 : Option String),
      on_gio_signal c m st (some [f0, some "Stop"]) = ([Action.stop], [LogLevel.debug]) :=
  fun _ _ _ _ => rfl

/-- C8: the interleaving in which the notify_one of the gio thread runs
before the constructor enters cv.wait is reachable, is stuck (no
transition leaves it), and leaves the constructor unreturned: the
notification is lost and construction hangs, contradicting the claim
that the wait is released in every interleaving. -/
theorem c8_startup_lost_wakeup :
    Relation.ReflTransGen SyncStep syncInit ⟨OwnerPC.oWaiting, ThreadPC.tDone⟩
    ∧ (∀ s, ¬ SyncStep ⟨OwnerPC.oWaiting, ThreadPC.tDone⟩ s)
    ∧ (syncInit.owner ≠ OwnerPC.oReturned
        ∧ (⟨OwnerPC.oWaiting, ThreadPC.tDone⟩ : SyncState).owner ≠ OwnerPC.oReturned) := by
  refine ⟨?_, ?_, by decide, by decide⟩
  · exact Relation.ReflTransGen.tail
      (Relation.ReflTransGen.single (SyncStep.notify_miss OwnerPC.oLocked (by decide)))
      (SyncStep.owner_wait ThreadPC.tDone)
  · intro s h
    cases h

/-- C9: the key-mapping flag is read from the configuration store at
dispatch time: when it reads false no mapped action is invoked for a
non-Play, non-Stop key even on a non-empty map, and an empty map yields
no action regardless of the flag. -/
theorem c9_flag_read_at_dispatch :
    (∀ (c : Config) (m : List (String × Action)) (st : String) (f0 : Option String)
       (k : String), k ≠ "Play" → k ≠ "Stop" →
       c.get_bool MEDIA_KEY_MAPPING_KEY DEFAULT_MEDIA_KEY_MAPPING_VALUE = false →
       (on_gio_signal c m st (some [f0, some k])).1 = [])
    ∧ (∀ (c : Config) (st : String) (f0 : Option String) (k : String),
       k ≠ "Play" → k ≠ "Stop" →
       (on_gio_signal c [] st (some [f0, some k])).1 = []) := by
  constructor
  · intro c m st f0 k hp hs hflag
    rw [on_gio_signal_valid, if_neg hs, if_neg hp, hflag]
    rfl
  · intro c st f0 k hp hs
    rw [on_gio_signal_valid, if_neg hs, if_neg hp]
    cases hb : c.get_bool MEDIA_KEY_MAPPING_KEY DEFAULT_MEDIA_KEY_MAPPING_VALUE <;> simp [mapFind]

/-- Witness for C9: a matching key on a non-empty map invokes nothing
when the flag reads false, and an empty map invokes nothing when the
flag reads true. -/
theorem c9_flag_read_at_dispatch_witness :
    (on_gio_signal cfg_disabled [("xf86audioraisevolume", Action.volume_up_msg)]
       STATE_STOPPED (some [none, some "XF86AudioRaiseVolume"])).1 = []
    ∧ (on_gio_signal cfg_empty [] STATE_STOPPED (some [none, some "XF86AudioRaiseVolume"])).1 = [] :=
  ⟨c9_flag_read_at_dispatch.1 cfg_disabled [("xf86audioraisevolume", Action.volume_up_msg)]
      STATE_STOPPED none "XF86AudioRaiseVolume" (by decide) (by decide) (by decide),
   c9_flag_read_at_dispatch.2 cfg_empty STATE_STOPPED none "XF86AudioRaiseVolume"
      (by decide) (by decide)⟩

/-- C10: the Play and Stop comparisons are case-sensitive and precede
any lower-casing: a key other than the exact strings "Play" and "Stop"
falls through to the lower-cased map lookup, invoking the bound action
on a hit and logging a second debug event on a miss. -/
theorem c10_case_sensitive_hardcoded :
    ∀ (c : Config) (m : List (String × Action)) (st : String) (f0 : Option String)
      (k : String), k ≠ "Play" → k ≠ "Stop" →
      on_gio_signal c m st (some [f0, some k]) =
        (if c.get_bool MEDIA_KEY_MAPPING_KEY DEFAULT_MEDIA_KEY_MAPPING_VALUE then
           match mapFind (to_lower k) m with
           | some act => ([act], [LogLevel.debug])
           | none => ([], [LogLevel.debug, LogLevel.debug])
         else ([], [LogLevel.debug, LogLevel.debug])) := by
  intro c m st f0 k hp hs
  rw [on_gio_signal_valid, if_neg hs, if_neg hp]

/-- Witness for C10: the lower-cased key "play" does not trigger the
hardcoded toggle and is ignored at debug level on an empty map. -/
theorem c10_case_sensitive_hardcoded_witness :
    ("play" ≠ "Play" ∧ "play" ≠ "Stop") ∧
    on_gio_signal cfg_empty [] STATE_STOPPED (some [none, some "play"]) =
      ([], [LogLevel.debug, LogLevel.debug]) := by
  refine ⟨⟨by decide, by decide⟩, ?_⟩
  rw [c10_case_sensitive_hardcoded cfg_empty [] STATE_STOPPED none "play" (by decide) (by decide)]
  decide

end RTNG
